import Mathlib

/-!
Shallow embedding of the Velocity speed-test backend (src/server.js) and of
the Session Registry / Latency Prober components described in the design
document (which have no implementation in the source tree).

Randomness (`Math.random()`), clock reads (`new Date()`), and OS queries
(`os.cpus()`, `os.loadavg()`, `os.freemem()`, `os.totalmem()`,
`os.hostname()`, `process.uptime()`, `process.env`) are modelled as explicit
inputs collected in an `Env` record.  JavaScript numbers are modelled as
exact rationals; `Number.prototype.toFixed(d)` followed by unary `+` is
modelled as rounding to the nearest multiple of `10^(-d)` (`toFixed`), and
`toFixed` kept as a string is modelled by `ratToFixedStr`.  JSON
serialization of a `Date` (which JavaScript performs via `toISOString`) is
modelled by `toISOString` over milliseconds since the Unix epoch.
-/

/-- JSON values, as produced by Express `res.json`. -/
inductive Json where
  | str : String → Json
  | num : ℚ → Json
  | obj : List (String × Json) → Json

/-- Field lookup in a JSON object (`none` on non-objects or missing keys). -/
def Json.field? : Json → String → Option Json
  | .obj fs, k => fs.lookup k
  | .str _, _ => none
  | .num _, _ => none

/-- An HTTP response body: `res.send` of a string, or `res.json` of a value. -/
inductive RespBody where
  | text : String → RespBody
  | json : Json → RespBody

/-- An HTTP response: status code plus body.  Both `res.send` and `res.json`
leave Express's default status code 200 in src/server.js. -/
structure HttpResponse where
  statusCode : Nat
  body : RespBody

/-- An incoming HTTP request.  The three handlers in src/server.js never read
`req`, so all of these fields are potential but unused inputs. -/
structure Request where
  method : String
  path : String
  headers : List (String × String)
  query : List (String × String)
  body : String

/-- A GET request for `p` with no headers, query parameters, or body. -/
def getReq (p : String) : Request :=
  { method := "GET", path := p, headers := [], query := [], body := "" }

/-- The ambient inputs of one request-handling step: the four `Math.random()`
draws made by `generateSpeedStats`, the current time, and the OS snapshot. -/
structure Env where
  rand1 : ℚ
  rand2 : ℚ
  rand3 : ℚ
  rand4 : ℚ
  nowMs : Nat
  cpus : List String
  load1 : ℚ
  load5 : ℚ
  load15 : ℚ
  freemem : ℚ
  totalmem : ℚ
  hostname : String
  uptime : ℚ
  region? : Option String

/-- Model of `+(x.toFixed(d))`: round to the nearest multiple of `10^(-d)`. -/
def toFixed (d : Nat) (x : ℚ) : ℚ :=
  (round (x * 10 ^ d) : ℚ) / 10 ^ d

/-- Exactly `w` decimal digits of `n` (most significant first), as used for
zero-padded date/time fields. -/
def padDigits (w n : Nat) : String :=
  String.mk ((List.range w).map (fun i => Char.ofNat (48 + n / 10 ^ (w - 1 - i) % 10)))

/-- Decimal digits of a natural number, with at least one digit. -/
def natDigitsStr (n : Nat) : String :=
  padDigits (Nat.log 10 n + 1) n

/-- Model of `x.toFixed(d)` kept as a string (nonnegative `x`), as in
`getSystemLoad`'s `freeMem` field. -/
def ratToFixedStr (d : Nat) (x : ℚ) : String :=
  let n := (round (x * 10 ^ d)).toNat
  natDigitsStr (n / 10 ^ d) ++ "." ++ padDigits d n

/-- Gregorian calendar date (year, month, day) from days since 1970-01-01. -/
def civilFromDays (z0 : Nat) : Nat × Nat × Nat :=
  let z := z0 + 719468
  let era := z / 146097
  let doe := z % 146097
  let yoe := (doe - doe / 1460 + doe / 36524 - doe / 146096) / 365
  let doy := doe - (365 * yoe + yoe / 4 - yoe / 100)
  let mp := (5 * doy + 2) / 153
  let d := doy - (153 * mp + 2) / 5 + 1
  let m := if mp < 10 then mp + 3 else mp - 9
  let y := yoe + era * 400 + (if m ≤ 2 then 1 else 0)
  (y, m, d)

/-- Model of `Date.prototype.toISOString` on milliseconds since the epoch:
the ISO-8601 UTC form `YYYY-MM-DDTHH:MM:SS.mmmZ` (24 characters).  This is
how `res.json` serializes the `new Date()` value in src/server.js. -/
def toISOString (ms : Nat) : String :=
  let ymd := civilFromDays (ms / 86400000)
  let rem := ms % 86400000
  padDigits 4 ymd.1 ++ "-" ++ padDigits 2 ymd.2.1 ++ "-" ++ padDigits 2 ymd.2.2 ++ "T" ++
    padDigits 2 (rem / 3600000) ++ ":" ++ padDigits 2 (rem / 60000 % 60) ++ ":" ++
    padDigits 2 (rem / 1000 % 60) ++ "." ++ padDigits 3 (rem % 1000) ++ "Z"

/-- Result of `getSystemLoad` (src/server.js:26-31): CPU count, first load
average, and free-memory percentage rendered with `toFixed(2)` (a string). -/
structure SystemLoad where
  cpuCount : Nat
  avgLoad : ℚ
  freeMem : String

/-- `getSystemLoad` (src/server.js:26-31), with the OS reads supplied by
`env`: `os.cpus().length`, `os.loadavg()[0]`, and
`(os.freemem() / os.totalmem()) * 100` rendered via `toFixed(2)`. -/
def getSystemLoad (env : Env) : SystemLoad :=
  { cpuCount := env.cpus.length
    avgLoad := env.load1
    freeMem := ratToFixedStr 2 (env.freemem / env.totalmem * 100) }

/-- Result of `generateSpeedStats` (src/server.js:34-40). -/
structure SpeedStats where
  ping : ℚ
  download : ℚ
  upload : ℚ
  accuracy : ℚ

/-- `generateSpeedStats` (src/server.js:34-40), with the four `Math.random()`
draws supplied as arguments `r1`-`r4` (each in `[0, 1)` for the real RNG). -/
def generateSpeedStats (r1 r2 r3 r4 : ℚ) : SpeedStats :=
  { ping := toFixed 1 (r1 * (40 - 8) + 8)
    download := toFixed 1 (r2 * (120 - 30) + 30)
    upload := toFixed 1 (r3 * (60 - 10) + 10)
    accuracy := toFixed 2 (r4 * (99.9 - 97) + 97) }

/-- The JSON body sent by the `GET /api/speedtest` handler
(src/server.js:48-64). -/
def speedtestBody (env : Env) : Json :=
  let serverLoad := getSystemLoad env
  let stats := generateSpeedStats env.rand1 env.rand2 env.rand3 env.rand4
  .obj
    [("status", .str "success"),
     ("timestamp", .str (toISOString env.nowMs)),
     ("server", .obj
       [("name", .str env.hostname),
        ("region", .str (env.region?.getD "primary")),
        ("load", .num serverLoad.avgLoad),
        ("cpuCount", .num serverLoad.cpuCount),
        ("memoryFree", .str (serverLoad.freeMem ++ "%"))]),
     ("data", .obj
       [("ping", .num stats.ping),
        ("download", .num stats.download),
        ("upload", .num stats.upload),
        ("accuracy", .num stats.accuracy)])]

/-- The JSON body sent by the `GET /api/health` handler (src/server.js:67-73). -/
def healthBody (env : Env) : Json :=
  .obj
    [("status", .str "OK"),
     ("uptime", .num env.uptime),
     ("load", .obj
       [("cpuCount", .num (getSystemLoad env).cpuCount),
        ("avgLoad", .num (getSystemLoad env).avgLoad),
        ("freeMem", .str (getSystemLoad env).freeMem)])]

/-- The plain-text body sent by the `GET /` handler (src/server.js:43-45). -/
def rootText : String := "⚡ Velocity Backend Active - Ready for Speed Test"

/-- The Express app of src/server.js as a request dispatcher: the three
registered GET routes each produce a 200 response; anything else falls
through (`none`). -/
def appHandle (env : Env) (req : Request) : Option HttpResponse :=
  if req.method = "GET" then
    if req.path = "/" then some ⟨200, .text rootText⟩
    else if req.path = "/api/speedtest" then some ⟨200, .json (speedtestBody env)⟩
    else if req.path = "/api/health" then some ⟨200, .json (healthBody env)⟩
    else none
  else none

/-- The `cluster.fork()` calls made by the primary's startup loop
(src/server.js:81-83): one per entry of `List.range cpuCount`. -/
def startupForkCalls (cpuCount : Nat) : List Unit :=
  (List.range cpuCount).map (fun _ => ())

/-- The `cluster.fork()` calls made by the `exit` handler for one worker
exit event (src/server.js:85-88). -/
def onWorkerExit (_workerPid : Nat) : List Unit :=
  [()]

/-- All fork calls made by the primary given its CPU count and the sequence
of worker-exit events it observes (src/server.js:76-88). -/
def clusterRun (cpuCount : Nat) (exits : List Nat) : List Unit :=
  startupForkCalls cpuCount ++ exits.flatMap onWorkerExit

/-- Modelled from the spec: the error taxonomy of §7 relevant to the Session
Registry contract (`Capacity`, `NotFound`); the registry itself has no
implementation in src/. -/
inductive RegError where
  | Capacity : RegError
  | NotFound : RegError

/-- Modelled from the spec: the handle returned by a successful
`open(clientId)` call (§4.1); absent from src/. -/
structure SessionHandle where
  sessionId : Nat

/-- Modelled from the spec: the Session Registry state of §4.1 — active
sessions keyed by session id with the owning client, a global cap, and a
per-client cap; absent from src/. -/
structure Registry where
  globalCap : Nat
  perClientCap : Nat
  sessions : List (Nat × String)
  nextId : Nat

/-- The number of active sessions the registry holds for one client. -/
def Registry.clientCount (reg : Registry) (clientId : String) : Nat :=
  (reg.sessions.filter (fun s => s.2 = clientId)).length

/-- Modelled from the spec: `open(clientId) -> SessionHandle | fails with
Capacity when global or per-client limit exceeded` (§4.1); slot acquisition
is atomic (§5), so one call is one step.  Absent from src/. -/
def Registry.open' (reg : Registry) (clientId : String) :
    Except RegError (SessionHandle × Registry) :=
  if reg.globalCap ≤ reg.sessions.length then .error .Capacity
  else if reg.perClientCap ≤ reg.clientCount clientId then .error .Capacity
  else
    .ok (⟨reg.nextId⟩,
      { reg with sessions := (reg.nextId, clientId) :: reg.sessions, nextId := reg.nextId + 1 })

/-- Modelled from the spec: `close(sessionId)` releases the slot (§4.1);
absent from src/. -/
def Registry.close' (reg : Registry) (sessionId : Nat) : Registry :=
  { reg with sessions := reg.sessions.filter (fun s => ¬ s.1 = sessionId) }

/-- Modelled from the spec: `get(sessionId) -> Session | fails with
NotFound` (§4.1); absent from src/. -/
def Registry.get' (reg : Registry) (sessionId : Nat) : Except RegError (Nat × String) :=
  match reg.sessions.find? (fun s => s.1 = sessionId) with
  | some s => .ok s
  | none => .error .NotFound

/-- `true` exactly on successful `open` results. -/
def isOkE : Except RegError SessionHandle → Bool
  | .ok _ => true
  | .error _ => false

/-- Run a batch of `open` calls one atomic step at a time (any interleaving
of concurrent calls is some such sequence, since acquisition is atomic per
§5), returning the per-call results and the final registry. -/
def runOpens : Registry → List String → List (Except RegError SessionHandle)
  | _, [] => []
  | reg, c :: cs =>
    match reg.open' c with
    | .ok (h, reg') => .ok h :: runOpens reg' cs
    | .error e => .error e :: runOpens reg cs

/-- Modelled from the spec: the latency aggregation of §3/§4.3 — ping is the
median of the recorded round-trip samples; absent from src/. -/
def median (xs : List ℚ) : ℚ :=
  let s := List.insertionSort (· ≤ ·) xs
  if s.length % 2 = 1 then s.getD (s.length / 2) 0
  else (s.getD (s.length / 2 - 1) 0 + s.getD (s.length / 2) 0) / 2

/-- Modelled from the spec: jitter is the mean absolute difference between
consecutive latency samples (§3/§4.3); absent from src/. -/
def jitter (xs : List ℚ) : ℚ :=
  let ds := (xs.zip xs.tail).map (fun p => |p.1 - p.2|)
  if ds.length = 0 then 0 else ds.sum / (ds.length : ℚ)

/-- A concrete environment used for counterexamples and witnesses. -/
def envEx : Env :=
  { rand1 := 1/1000, rand2 := 1/1000, rand3 := 1/1000, rand4 := 1/1000,
    nowMs := 1760227200000, cpus := ["cpu0", "cpu1"],
    load1 := 1/2, load5 := 1/2, load15 := 1/2,
    freemem := 1, totalmem := 2, hostname := "velocity-1", uptime := 5,
    region? := none }

/-- A GET request for `/` carrying nontrivial headers, query and body. -/
def reqW : Request :=
  { method := "GET", path := "/",
    headers := [("x-forwarded-for", "203.0.113.9")],
    query := [("verbose", "1")], body := "ignored" }

lemma length_flatMap_onWorkerExit (exits : List Nat) :
    (exits.flatMap onWorkerExit).length = exits.length := by
  induction exits with
  | nil => rfl
  | cons e es ih => simp [List.flatMap_cons, onWorkerExit, ih]

/-- C1: on `GET /api/speedtest` the server responds with the four
random-derived numbers labeled ping, download, upload and accuracy, together
with a system-load snapshot (CPU count, load average, free memory), and a
health-check route `GET /api/health` is also registered. -/
theorem speedtest_returns_metrics_and_load (env : Env) :
    appHandle env (getReq "/api/speedtest") = some ⟨200, .json (speedtestBody env)⟩ ∧
    (speedtestBody env).field? "data" = some (.obj
      [("ping", .num (generateSpeedStats env.rand1 env.rand2 env.rand3 env.rand4).ping),
       ("download", .num (generateSpeedStats env.rand1 env.rand2 env.rand3 env.rand4).download),
       ("upload", .num (generateSpeedStats env.rand1 env.rand2 env.rand3 env.rand4).upload),
       ("accuracy", .num (generateSpeedStats env.rand1 env.rand2 env.rand3 env.rand4).accuracy)]) ∧
    (speedtestBody env).field? "server" = some (.obj
      [("name", .str env.hostname),
       ("region", .str (env.region?.getD "primary")),
       ("load", .num (getSystemLoad env).avgLoad),
       ("cpuCount", .num (getSystemLoad env).cpuCount),
       ("memoryFree", .str ((getSystemLoad env).freeMem ++ "%"))]) ∧
    (appHandle env (getReq "/api/health")).isSome = true :=
  ⟨rfl, rfl, rfl, rfl⟩

/-- C2 counterexample: the `GET /api/health` response carries `status: "OK"`,
which is none of `success`, `partial`, `failed`, and the `GET /` response is
plain text with no `status` field at all — so not every API response carries
a `status` in that enumeration. -/
theorem health_status_outside_enum :
    appHandle envEx (getReq "/api/health") = some ⟨200, .json (healthBody envEx)⟩ ∧
    (healthBody envEx).field? "status" = some (.str "OK") ∧
    ¬ ("OK" = "success" ∨ "OK" = "partial" ∨ "OK" = "failed") ∧
    appHandle envEx (getReq "/") = some ⟨200, .text rootText⟩ :=
  ⟨rfl, rfl, by decide, rfl⟩

/-- C2 amended: the JSON endpoints each carry a `status` field, but its value
is `"success"` for `GET /api/speedtest` and `"OK"` for `GET /api/health`
(never `partial` or `failed`), and `GET /` returns a plain-text body with no
`status` field. -/
theorem api_status_fields (env : Env) :
    (speedtestBody env).field? "status" = some (.str "success") ∧
    (healthBody env).field? "status" = some (.str "OK") ∧
    appHandle env (getReq "/") = some ⟨200, .text rootText⟩ :=
  ⟨rfl, rfl, rfl⟩

/-- C5: at startup the primary forks exactly one worker per CPU core, the
exit handler forks exactly one replacement per worker exit, and hence a run
with any sequence of exit events issues `cpuCount + exits.length` forks. -/
theorem cluster_fork_discipline (cpuCount : Nat) (exits : List Nat) :
    (startupForkCalls cpuCount).length = cpuCount ∧
    (∀ w, (onWorkerExit w).length = 1) ∧
    (clusterRun cpuCount exits).length = cpuCount + exits.length := by
  refine ⟨by simp [startupForkCalls], fun w => rfl, ?_⟩
  rw [clusterRun, List.length_append, length_flatMap_onWorkerExit]
  simp [startupForkCalls]

/-- C6: the two logic functions of the program, `generateSpeedStats` (over
its four random draws) and `getSystemLoad` (over the OS snapshot), are
deterministic: equal inputs give equal results. -/
theorem core_functions_deterministic (r1 r2 r3 r4 s1 s2 s3 s4 : ℚ) (e e' : Env)
    (hr : r1 = s1 ∧ r2 = s2 ∧ r3 = s3 ∧ r4 = s4) (he : e = e') :
    generateSpeedStats r1 r2 r3 r4 = generateSpeedStats s1 s2 s3 s4 ∧
    getSystemLoad e = getSystemLoad e' := by
  obtain ⟨h1, h2, h3, h4⟩ := hr
  subst h1 h2 h3 h4 he
  exact ⟨rfl, rfl⟩

/-- Witness for C6 at concrete inputs. -/
theorem core_functions_deterministic_witness :
    generateSpeedStats (1/2) (1/3) (1/4) (1/5) = generateSpeedStats (1/2) (1/3) (1/4) (1/5) ∧
    getSystemLoad envEx = getSystemLoad envEx :=
  core_functions_deterministic (1/2) (1/3) (1/4) (1/5) (1/2) (1/3) (1/4) (1/5) envEx envEx
    ⟨rfl, rfl, rfl, rfl⟩ rfl

/-- C7 counterexample: there is no `GET /health` route (the health check
lives at `/api/health`), and the health body has no registry-occupancy
field — there is no session registry in the source. -/
theorem no_plain_health_route :
    appHandle envEx (getReq "/health") = none ∧
    (healthBody envEx).field? "occupancy" = none ∧
    (healthBody envEx).field? "sessions" = none :=
  ⟨rfl, rfl, rfl⟩

/-- C7 amended: the health-check endpoint is `GET /api/health`; it returns a
liveness indication (`status: "OK"` plus the process uptime) together with a
system-load snapshot, and no session-registry occupancy (the path `/health`
is not routed at all). -/
theorem health_endpoint_contents (env : Env) :
    appHandle env (getReq "/api/health") = some ⟨200, .json (healthBody env)⟩ ∧
    (healthBody env).field? "status" = some (.str "OK") ∧
    (healthBody env).field? "uptime" = some (.num env.uptime) ∧
    (healthBody env).field? "load" = some (.obj
      [("cpuCount", .num (getSystemLoad env).cpuCount),
       ("avgLoad", .num (getSystemLoad env).avgLoad),
       ("freeMem", .str (getSystemLoad env).freeMem)]) ∧
    appHandle env (getReq "/health") = none :=
  ⟨rfl, rfl, rfl, rfl, rfl⟩

/-- C10: the three registered GET handlers are total: every GET request to
`/`, `/api/speedtest` or `/api/health` gets a 200 response, and the response
is independent of the request's headers, query and body. -/
theorem handlers_total (env : Env) (req : Request) (hm : req.method = "GET")
    (hp : req.path = "/" ∨ req.path = "/api/speedtest" ∨ req.path = "/api/health") :
    ∃ resp, appHandle env req = some resp ∧ resp.statusCode = 200 ∧
      appHandle env req = appHandle env (getReq req.path) := by
  rcases hp with h | h | h
  · exact ⟨⟨200, .text rootText⟩, by simp [appHandle, hm, h], rfl,
      by simp [appHandle, getReq, hm, h]⟩
  · exact ⟨⟨200, .json (speedtestBody env)⟩, by simp [appHandle, hm, h], rfl,
      by simp [appHandle, getReq, hm, h]⟩
  · exact ⟨⟨200, .json (healthBody env)⟩, by simp [appHandle, hm, h], rfl,
      by simp [appHandle, getReq, hm, h]⟩

/-- Witness for C10: a GET `/` request with nontrivial headers, query and
body gets the same 200 response as the bare request. -/
theorem handlers_total_witness :
    ∃ resp, appHandle envEx reqW = some resp ∧ resp.statusCode = 200 ∧
      appHandle envEx reqW = appHandle envEx (getReq reqW.path) :=
  handlers_total envEx reqW rfl (Or.inl rfl)

lemma toFixed_decimal (d : Nat) (x : ℚ) :
    ∃ k : ℤ, toFixed d x = (k : ℚ) / 10 ^ d :=
  ⟨round (x * 10 ^ d), rfl⟩

lemma toFixed_range (d : Nat) (x lo hi : ℚ) (a b : ℤ)
    (hae : (a : ℚ) = lo * 10 ^ d) (hbe : (b : ℚ) = hi * 10 ^ d)
    (hlo : lo ≤ x) (hhi : x < hi) :
    lo ≤ toFixed d x ∧ toFixed d x ≤ hi ∧
      ∃ k : ℤ, toFixed d x = (k : ℚ) / 10 ^ d := by
  have hp : (0 : ℚ) < 10 ^ d := by positivity
  have h1 : (a : ℚ) ≤ x * 10 ^ d := by
    rw [hae]
    exact mul_le_mul_of_nonneg_right hlo hp.le
  have h2 : x * 10 ^ d < (b : ℚ) := by
    rw [hbe]
    exact mul_lt_mul_of_pos_right hhi hp
  have hra : a ≤ round (x * 10 ^ d) := by
    rw [round_eq]
    exact Int.le_floor.mpr (by linarith)
  have hrb : round (x * 10 ^ d) ≤ b := by
    rw [round_eq]
    have hfl : ⌊x * 10 ^ d + 1 / 2⌋ < b + 1 := by
      rw [Int.floor_lt]
      push_cast
      linarith
    omega
  have hlo' : lo ≤ toFixed d x := by
    rw [toFixed, ← mul_le_mul_right hp, div_mul_cancel₀ _ hp.ne']
    calc lo * 10 ^ d = (a : ℚ) := hae.symm
      _ ≤ (round (x * 10 ^ d) : ℚ) := by exact_mod_cast hra
  have hhi' : toFixed d x ≤ hi := by
    rw [toFixed, ← mul_le_mul_right hp, div_mul_cancel₀ _ hp.ne']
    calc (round (x * 10 ^ d) : ℚ) ≤ (b : ℚ) := by exact_mod_cast hrb
      _ = hi * 10 ^ d := hbe
  exact ⟨hlo', hhi', toFixed_decimal d x⟩

/-- C4: each metric of `generateSpeedStats` lies in its fixed range — ping in
`[8, 40]`, download in `[30, 120]`, upload in `[10, 60]`, accuracy in
`[97, 99.9]` — and each has at most one decimal place (two for accuracy). -/
theorem speed_stats_ranges (r1 r2 r3 r4 : ℚ)
    (h1 : 0 ≤ r1 ∧ r1 < 1) (h2 : 0 ≤ r2 ∧ r2 < 1)
    (h3 : 0 ≤ r3 ∧ r3 < 1) (h4 : 0 ≤ r4 ∧ r4 < 1) :
    (8 ≤ (generateSpeedStats r1 r2 r3 r4).ping ∧
      (generateSpeedStats r1 r2 r3 r4).ping ≤ 40 ∧
      ∃ k : ℤ, (generateSpeedStats r1 r2 r3 r4).ping = (k : ℚ) / 10 ^ 1) ∧
    (30 ≤ (generateSpeedStats r1 r2 r3 r4).download ∧
      (generateSpeedStats r1 r2 r3 r4).download ≤ 120 ∧
      ∃ k : ℤ, (generateSpeedStats r1 r2 r3 r4).download = (k : ℚ) / 10 ^ 1) ∧
    (10 ≤ (generateSpeedStats r1 r2 r3 r4).upload ∧
      (generateSpeedStats r1 r2 r3 r4).upload ≤ 60 ∧
      ∃ k : ℤ, (generateSpeedStats r1 r2 r3 r4).upload = (k : ℚ) / 10 ^ 1) ∧
    (97 ≤ (generateSpeedStats r1 r2 r3 r4).accuracy ∧
      (generateSpeedStats r1 r2 r3 r4).accuracy ≤ 99.9 ∧
      ∃ k : ℤ, (generateSpeedStats r1 r2 r3 r4).accuracy = (k : ℚ) / 10 ^ 2) := by
  obtain ⟨h1a, h1b⟩ := h1
  obtain ⟨h2a, h2b⟩ := h2
  obtain ⟨h3a, h3b⟩ := h3
  obtain ⟨h4a, h4b⟩ := h4
  refine
    ⟨toFixed_range 1 (r1 * (40 - 8) + 8) 8 40 80 400 (by norm_num) (by norm_num)
        (by nlinarith) (by nlinarith),
      toFixed_range 1 (r2 * (120 - 30) + 30) 30 120 300 1200 (by norm_num) (by norm_num)
        (by nlinarith) (by nlinarith),
      toFixed_range 1 (r3 * (60 - 10) + 10) 10 60 100 600 (by norm_num) (by norm_num)
        (by nlinarith) (by nlinarith),
      toFixed_range 2 (r4 * (99.9 - 97) + 97) 97 99.9 9700 9990 (by norm_num) (by norm_num)
        (by nlinarith) (by nlinarith)⟩

/-- Witness for C4 at the draws of `envEx` (all `1/1000`). -/
theorem speed_stats_ranges_witness :
    (8 ≤ (generateSpeedStats (1/1000) (1/1000) (1/1000) (1/1000)).ping ∧
      (generateSpeedStats (1/1000) (1/1000) (1/1000) (1/1000)).ping ≤ 40 ∧
      ∃ k : ℤ, (generateSpeedStats (1/1000) (1/1000) (1/1000) (1/1000)).ping = (k : ℚ) / 10 ^ 1) ∧
    (30 ≤ (generateSpeedStats (1/1000) (1/1000) (1/1000) (1/1000)).download ∧
      (generateSpeedStats (1/1000) (1/1000) (1/1000) (1/1000)).download ≤ 120 ∧
      ∃ k : ℤ, (generateSpeedStats (1/1000) (1/1000) (1/1000) (1/1000)).download = (k : ℚ) / 10 ^ 1) ∧
    (10 ≤ (generateSpeedStats (1/1000) (1/1000) (1/1000) (1/1000)).upload ∧
      (generateSpeedStats (1/1000) (1/1000) (1/1000) (1/1000)).upload ≤ 60 ∧
      ∃ k : ℤ, (generateSpeedStats (1/1000) (1/1000) (1/1000) (1/1000)).upload = (k : ℚ) / 10 ^ 1) ∧
    (97 ≤ (generateSpeedStats (1/1000) (1/1000) (1/1000) (1/1000)).accuracy ∧
      (generateSpeedStats (1/1000) (1/1000) (1/1000) (1/1000)).accuracy ≤ 99.9 ∧
      ∃ k : ℤ, (generateSpeedStats (1/1000) (1/1000) (1/1000) (1/1000)).accuracy = (k : ℚ) / 10 ^ 2) :=
  speed_stats_ranges (1/1000) (1/1000) (1/1000) (1/1000)
    ⟨by norm_num, by norm_num⟩ ⟨by norm_num, by norm_num⟩
    ⟨by norm_num, by norm_num⟩ ⟨by norm_num, by norm_num⟩

lemma padDigits_length (w n : Nat) : (padDigits w n).length = w := by
  simp [padDigits, String.length]

lemma toISOString_length (ms : Nat) : (toISOString ms).length = 24 := by
  simp [toISOString, String.length_append, padDigits_length]
  rfl

/-- C3 counterexample: with the concrete random draws of `envEx` (all
`1/1000`) the download field of the speedtest response is `30.1`, which is
not an integer — so rates are not encoded as integer bits per second. -/
theorem download_not_integer :
    ((speedtestBody envEx).field? "data").bind (fun d => d.field? "download")
      = some (.num ((generateSpeedStats envEx.rand1 envEx.rand2 envEx.rand3 envEx.rand4).download)) ∧
    (generateSpeedStats envEx.rand1 envEx.rand2 envEx.rand3 envEx.rand4).download = 301 / 10 ∧
    ∀ k : ℤ, ((301 : ℚ) / 10) ≠ (k : ℚ) := by
  refine ⟨rfl, ?_, ?_⟩
  · norm_num [generateSpeedStats, toFixed, envEx, round_eq]
  · intro k hk
    rw [div_eq_iff (by norm_num : (10 : ℚ) ≠ 0)] at hk
    have : (301 : ℤ) = k * 10 := by exact_mod_cast hk
    omega

/-- C3 amended: in the speedtest JSON response the timestamp is the `Date`
serialized as a 24-character ISO-8601 UTC string, ping is a floating-point
milliseconds value with at most one decimal place, and download and upload
are likewise one-decimal floating-point values in `[30, 120]` and `[10, 60]`
(Mbps-scale numbers), not integer bits per second. -/
theorem speedtest_value_formats (env : Env)
    (h2 : 0 ≤ env.rand2 ∧ env.rand2 < 1) (h3 : 0 ≤ env.rand3 ∧ env.rand3 < 1) :
    (speedtestBody env).field? "timestamp" = some (.str (toISOString env.nowMs)) ∧
    (toISOString env.nowMs).length = 24 ∧
    (∃ k : ℤ, (generateSpeedStats env.rand1 env.rand2 env.rand3 env.rand4).ping
      = (k : ℚ) / 10 ^ 1) ∧
    (∃ k : ℤ, (generateSpeedStats env.rand1 env.rand2 env.rand3 env.rand4).download
      = (k : ℚ) / 10 ^ 1) ∧
    30 ≤ (generateSpeedStats env.rand1 env.rand2 env.rand3 env.rand4).download ∧
    (generateSpeedStats env.rand1 env.rand2 env.rand3 env.rand4).download ≤ 120 ∧
    (∃ k : ℤ, (generateSpeedStats env.rand1 env.rand2 env.rand3 env.rand4).upload
      = (k : ℚ) / 10 ^ 1) ∧
    10 ≤ (generateSpeedStats env.rand1 env.rand2 env.rand3 env.rand4).upload ∧
    (generateSpeedStats env.rand1 env.rand2 env.rand3 env.rand4).upload ≤ 60 := by
  obtain ⟨h2a, h2b⟩ := h2
  obtain ⟨h3a, h3b⟩ := h3
  obtain ⟨hd1, hd2, hd3⟩ :=
    toFixed_range 1 (env.rand2 * (120 - 30) + 30) 30 120 300 1200 (by norm_num) (by norm_num)
      (by nlinarith) (by nlinarith)
  obtain ⟨hu1, hu2, hu3⟩ :=
    toFixed_range 1 (env.rand3 * (60 - 10) + 10) 10 60 100 600 (by norm_num) (by norm_num)
      (by nlinarith) (by nlinarith)
  exact ⟨rfl, toISOString_length env.nowMs, toFixed_decimal 1 _, hd3, hd1, hd2, hu3, hu1, hu2⟩

/-- Witness for C3's amended statement at the concrete environment `envEx`. -/
theorem speedtest_value_formats_witness :
    (speedtestBody envEx).field? "timestamp" = some (.str (toISOString envEx.nowMs)) ∧
    (toISOString envEx.nowMs).length = 24 ∧
    (∃ k : ℤ, (generateSpeedStats envEx.rand1 envEx.rand2 envEx.rand3 envEx.rand4).ping
      = (k : ℚ) / 10 ^ 1) ∧
    (∃ k : ℤ, (generateSpeedStats envEx.rand1 envEx.rand2 envEx.rand3 envEx.rand4).download
      = (k : ℚ) / 10 ^ 1) ∧
    30 ≤ (generateSpeedStats envEx.rand1 envEx.rand2 envEx.rand3 envEx.rand4).download ∧
    (generateSpeedStats envEx.rand1 envEx.rand2 envEx.rand3 envEx.rand4).download ≤ 120 ∧
    (∃ k : ℤ, (generateSpeedStats envEx.rand1 envEx.rand2 envEx.rand3 envEx.rand4).upload
      = (k : ℚ) / 10 ^ 1) ∧
    10 ≤ (generateSpeedStats envEx.rand1 envEx.rand2 envEx.rand3 envEx.rand4).upload ∧
    (generateSpeedStats envEx.rand1 envEx.rand2 envEx.rand3 envEx.rand4).upload ≤ 60 :=
  speedtest_value_formats envEx ⟨by norm_num [envEx], by norm_num [envEx]⟩
    ⟨by norm_num [envEx], by norm_num [envEx]⟩

lemma open'_error_capacity (reg : Registry) (c : String) (e : RegError)
    (h : reg.open' c = .error e) : e = .Capacity := by
  rw [Registry.open'] at h
  split at h
  · injection h with h'
    exact h'.symm
  · split at h
    · injection h with h'
      exact h'.symm
    · exact Except.noConfusion h

lemma runOpens_cons_ok (reg reg' : Registry) (h : SessionHandle) (c : String) (cs : List String)
    (hopen : reg.open' c = .ok (h, reg')) :
    runOpens reg (c :: cs) = .ok h :: runOpens reg' cs := by
  simp [runOpens, hopen]

lemma runOpens_cons_error (reg : Registry) (e : RegError) (c : String) (cs : List String)
    (hopen : reg.open' c = .error e) :
    runOpens reg (c :: cs) = .error e :: runOpens reg cs := by
  simp [runOpens, hopen]

lemma runOpens_length (clients : List String) (reg : Registry) :
    (runOpens reg clients).length = clients.length := by
  induction clients generalizing reg with
  | nil => rfl
  | cons c cs ih =>
    cases h : reg.open' c with
    | ok v =>
      rw [runOpens_cons_ok reg v.2 v.1 c cs (by rw [h]), List.length_cons, ih]
      rfl
    | error e =>
      rw [runOpens_cons_error reg e c cs h, List.length_cons, ih]
      rfl

lemma countP_not_isOkE (rs : List (Except RegError SessionHandle)) :
    rs.countP (fun r => ! isOkE r) = rs.length - rs.countP isOkE := by
  induction rs with
  | nil => rfl
  | cons r rs ih =>
    have hle : rs.countP isOkE ≤ rs.length := List.countP_le_length _
    cases hr : isOkE r with
    | true =>
      rw [List.countP_cons_of_neg _ _ (by simp [hr]), ih,
        List.countP_cons_of_pos _ _ hr, List.length_cons]
      omega
    | false =>
      rw [List.countP_cons_of_pos _ _ (by simp [hr]), ih,
        List.countP_cons_of_neg _ _ (by simp [hr]), List.length_cons]
      omega

lemma runOpens_ok_count (clients : List String) (reg : Registry)
    (hcap : reg.globalCap ≤ reg.perClientCap) :
    (runOpens reg clients).countP isOkE =
      min clients.length (reg.globalCap - reg.sessions.length) := by
  induction clients generalizing reg with
  | nil => simp [runOpens]
  | cons c cs ih =>
    by_cases hfull : reg.globalCap ≤ reg.sessions.length
    · have hopen : reg.open' c = .error .Capacity := by
        rw [Registry.open', if_pos hfull]
      rw [runOpens_cons_error reg .Capacity c cs hopen,
        List.countP_cons_of_neg _ _ (by simp [isOkE]), ih reg hcap, List.length_cons]
      omega
    · push_neg at hfull
      have hclient : reg.clientCount c < reg.perClientCap :=
        lt_of_le_of_lt (List.length_filter_le _ _) (lt_of_lt_of_le hfull hcap)
      have hopen : reg.open' c = .ok (⟨reg.nextId⟩,
          { reg with sessions := (reg.nextId, c) :: reg.sessions, nextId := reg.nextId + 1 }) := by
        rw [Registry.open', if_neg (not_le.mpr hfull), if_neg (not_le.mpr hclient)]
      have hih := ih
        { reg with sessions := (reg.nextId, c) :: reg.sessions, nextId := reg.nextId + 1 } hcap
      rw [runOpens_cons_ok reg _ ⟨reg.nextId⟩ c cs hopen,
        List.countP_cons_of_pos _ _ (by simp [isOkE]), hih]
      have h1 : ({ reg with sessions := (reg.nextId, c) :: reg.sessions, nextId := reg.nextId + 1 } : Registry).sessions.length = reg.sessions.length + 1 := rfl
      have h2 : ({ reg with sessions := (reg.nextId, c) :: reg.sessions, nextId := reg.nextId + 1 } : Registry).globalCap = reg.globalCap := rfl
      have h3 : (c :: cs).length = cs.length + 1 := rfl
      omega

/-- C8: `open` on the modelled Session Registry fails with `Capacity` exactly
when the global or per-client concurrent-session limit is exceeded (and
`Capacity` is its only failure); starting from an empty registry whose global
cap is `cap` (per-client cap no smaller), any sequence of `cap + 1` atomic
`open` calls yields exactly `cap` successes and exactly one failure. -/
theorem registry_capacity (cap : Nat) (reg : Registry) (clients : List String)
    (hs : reg.sessions = []) (hg : reg.globalCap = cap)
    (hpc : cap ≤ reg.perClientCap) (hlen : clients.length = cap + 1) :
    (∀ (r : Registry) (c : String),
      ((∃ e, r.open' c = .error e) ↔
        r.globalCap ≤ r.sessions.length ∨ r.perClientCap ≤ r.clientCount c) ∧
      (∀ e, r.open' c = .error e → e = .Capacity) ∧
      (¬ (r.globalCap ≤ r.sessions.length ∨ r.perClientCap ≤ r.clientCount c) →
        ∃ h r', r.open' c = .ok (h, r'))) ∧
    (runOpens reg clients).countP isOkE = cap ∧
    (runOpens reg clients).countP (fun r => ! isOkE r) = 1 := by
  have contract : ∀ (r : Registry) (c : String),
      ((∃ e, r.open' c = .error e) ↔
        r.globalCap ≤ r.sessions.length ∨ r.perClientCap ≤ r.clientCount c) ∧
      (∀ e, r.open' c = .error e → e = .Capacity) ∧
      (¬ (r.globalCap ≤ r.sessions.length ∨ r.perClientCap ≤ r.clientCount c) →
        ∃ h r', r.open' c = .ok (h, r')) := by
    intro r c
    refine ⟨⟨fun he => ?_, fun hor => ?_⟩, fun e he => open'_error_capacity r c e he, fun hnot => ?_⟩
    · by_contra hnor
      push_neg at hnor
      obtain ⟨hA, hB⟩ := hnor
      obtain ⟨e, he⟩ := he
      rw [Registry.open', if_neg (not_le.mpr hA), if_neg (not_le.mpr hB)] at he
      exact Except.noConfusion he
    · by_cases hA : r.globalCap ≤ r.sessions.length
      · exact ⟨.Capacity, by rw [Registry.open', if_pos hA]⟩
      · have hB : r.perClientCap ≤ r.clientCount c := hor.resolve_left hA
        exact ⟨.Capacity, by rw [Registry.open', if_neg hA, if_pos hB]⟩
    · push_neg at hnot
      obtain ⟨hA, hB⟩ := hnot
      exact ⟨⟨r.nextId⟩, _, by rw [Registry.open', if_neg (not_le.mpr hA), if_neg (not_le.mpr hB)]⟩
  have hokv : (runOpens reg clients).countP isOkE = cap := by
    have h := runOpens_ok_count clients reg (by rw [hg]; exact hpc)
    rw [hs, hg, hlen] at h
    simp at h
    omega
  have hlenv : (runOpens reg clients).length = cap + 1 := by
    rw [runOpens_length, hlen]
  have hnot := countP_not_isOkE (runOpens reg clients)
  exact ⟨contract, hokv, by omega⟩

/-- Witness for C8: global cap 2, per-client cap 5, three `open` calls. -/
theorem registry_capacity_witness :
    (∀ (r : Registry) (c : String),
      ((∃ e, r.open' c = .error e) ↔
        r.globalCap ≤ r.sessions.length ∨ r.perClientCap ≤ r.clientCount c) ∧
      (∀ e, r.open' c = .error e → e = .Capacity) ∧
      (¬ (r.globalCap ≤ r.sessions.length ∨ r.perClientCap ≤ r.clientCount c) →
        ∃ h r', r.open' c = .ok (h, r'))) ∧
    (runOpens ⟨2, 5, [], 0⟩ ["a", "b", "c"]).countP isOkE = 2 ∧
    (runOpens ⟨2, 5, [], 0⟩ ["a", "b", "c"]).countP (fun r => ! isOkE r) = 1 :=
  registry_capacity 2 ⟨2, 5, [], 0⟩ ["a", "b", "c"] rfl rfl (by norm_num) rfl

lemma getD_mem_of_lt (l : List ℚ) (i : Nat) (d : ℚ) (h : i < l.length) :
    l.getD i d ∈ l := by
  rw [List.getD_eq_getElem?_getD, List.getElem?_eq_getElem h, Option.getD_some]
  exact List.getElem_mem h

lemma jitter_nonneg (xs : List ℚ) : 0 ≤ jitter xs := by
  simp only [jitter]
  by_cases h : ((xs.zip xs.tail).map fun p => |p.1 - p.2|).length = 0
  · rw [if_pos h]
  · rw [if_neg h]
    apply div_nonneg
    · apply List.sum_nonneg
      intro x hx
      obtain ⟨p, hp, rfl⟩ := List.mem_map.mp hx
      exact abs_nonneg _
    · positivity

/-- C9: for a nonempty latency sample list, the reported median lies within
any interval `[lo, hi]` containing every recorded sample — in particular
within `[min, max]` of the sample set — and the reported jitter is
nonnegative. -/
theorem latency_median_jitter (xs : List ℚ) (lo hi : ℚ) (hne : xs ≠ [])
    (hlo : ∀ x ∈ xs, lo ≤ x) (hhi : ∀ x ∈ xs, x ≤ hi) :
    lo ≤ median xs ∧ median xs ≤ hi ∧ 0 ≤ jitter xs := by
  have hjit : 0 ≤ jitter xs := jitter_nonneg xs
  have hperm := List.perm_insertionSort (· ≤ ·) xs
  have hlen : (List.insertionSort (· ≤ ·) xs).length = xs.length := hperm.length_eq
  have hpos : 0 < (List.insertionSort (· ≤ ·) xs).length := by
    rw [hlen]
    exact List.length_pos.mpr hne
  have hbnd : ∀ i, i < (List.insertionSort (· ≤ ·) xs).length →
      lo ≤ (List.insertionSort (· ≤ ·) xs).getD i 0 ∧
        (List.insertionSort (· ≤ ·) xs).getD i 0 ≤ hi := by
    intro i h
    have hm : (List.insertionSort (· ≤ ·) xs).getD i 0 ∈ xs :=
      hperm.mem_iff.mp (getD_mem_of_lt _ i 0 h)
    exact ⟨hlo _ hm, hhi _ hm⟩
  have key : lo ≤ median xs ∧ median xs ≤ hi := by
    simp only [median]
    by_cases hodd : (List.insertionSort (· ≤ ·) xs).length % 2 = 1
    · rw [if_pos hodd]
      exact hbnd _ (Nat.div_lt_self hpos (by norm_num))
    · rw [if_neg hodd]
      have h2 : 2 ≤ (List.insertionSort (· ≤ ·) xs).length := by omega
      have ha := hbnd ((List.insertionSort (· ≤ ·) xs).length / 2 - 1) (by omega)
      have hb := hbnd ((List.insertionSort (· ≤ ·) xs).length / 2)
        (Nat.div_lt_self hpos (by norm_num))
      constructor
      · linarith [ha.1, hb.1]
      · linarith [ha.2, hb.2]
  exact ⟨key.1, key.2, hjit⟩

/-- Witness for C9 on the sample list `[3, 1, 2]` with bounds `[1, 3]`. -/
theorem latency_median_jitter_witness :
    (1 : ℚ) ≤ median [3, 1, 2] ∧ median [3, 1, 2] ≤ 3 ∧ 0 ≤ jitter [3, 1, 2] :=
  latency_median_jitter [3, 1, 2] 1 3 (by simp)
    (by intro x hx; fin_cases hx <;> norm_num)
    (by intro x hx; fin_cases hx <;> norm_num)
